import Mathlib

/- Verification of the local IPC core (socket.cpp) and of the Process
   environment overlay resolution documented in src/io/process.hpp.
   The C++ objects become explicit state records; each member function
   becomes a function from the old state to the new state paired with the
   list of signals and externally visible actions it performs, in order.
   Asynchronous OS outcomes (listen success, file removal success, the
   pending connection handed out by the listener, the object produced by
   the QML handler factory) are passed in as explicit parameters. -/

/-- Signals and externally visible actions emitted by a Socket operation. -/
inductive SockEffect where
  | pathChanged
  | connectionStateChanged
  | connectAttempt (path : String)
  | disconnectRequest
  deriving Repr, DecidableEq

/-- The state of one QLocalSocket as observed by the embedded code: the
server name it was given and whether it is already open when handed over. -/
structure LocalSocket where
  serverName : String
  isOpen : Bool
  deriving Repr, DecidableEq

/-- State of the Socket QML object (socket.cpp): the path property, the
connection flags, the owned QLocalSocket if any, and the read buffer. -/
structure Socket where
  mPath : String
  connected : Bool
  targetConnected : Bool
  disconnecting : Bool
  socket : Option LocalSocket
  buffer : List Nat
  deriving Repr, DecidableEq

/-- Socket::onSocketConnected (socket.cpp lines 43 to 49): clear the buffer,
mark connected, reset the intent and teardown flags, emit the connection
state signal. -/
def Socket.onSocketConnected (s : Socket) : Socket × List SockEffect :=
  ({ s with buffer := [], connected := true, targetConnected := false, disconnecting := false },
   [SockEffect.connectionStateChanged])

/-- Socket::setSocket (socket.cpp lines 15 to 31): replace the owned socket
object, releasing a previous one; a socket that is already open fires
onSocketConnected at once. -/
def Socket.setSocket (s : Socket) (sock : Option LocalSocket) : Socket × List SockEffect :=
  let s1 : Socket := { s with socket := sock }
  match sock with
  | some l => if l.isOpen then s1.onSocketConnected else (s1, [])
  | none => (s1, [])

/-- Socket::connectPathSocket (socket.cpp lines 77 to 84): only with a non
empty path, create a fresh unconnected QLocalSocket whose server name is the
path, install it with setSocket, and start an asynchronous connect. -/
def Socket.connectPathSocket (s : Socket) : Socket × List SockEffect :=
  if s.mPath == "" then (s, [])
  else
    let r := s.setSocket (some { serverName := s.mPath, isOpen := false })
    (r.1, r.2 ++ [SockEffect.connectAttempt s.mPath])

/-- Socket::setPath (socket.cpp lines 35 to 41). -/
def Socket.setPath (s : Socket) (path : String) : Socket × List SockEffect :=
  if (s.connected && !s.disconnecting) || path == s.mPath then (s, [])
  else
    let s1 : Socket := { s with mPath := path }
    if s1.targetConnected && s1.socket.isNone then
      let r := s1.connectPathSocket
      (r.1, SockEffect.pathChanged :: r.2)
    else (s1, [SockEffect.pathChanged])

/-- Socket::onSocketDisconnected (socket.cpp lines 51 to 60): clear the
connection state, release the socket, clear the buffer, emit the connection
state signal, then reconnect through connectPathSocket if the intent is
still connected. -/
def Socket.onSocketDisconnected (s : Socket) : Socket × List SockEffect :=
  let s1 : Socket :=
    { s with connected := false, disconnecting := false, socket := none, buffer := [] }
  if s1.targetConnected then
    let r := s1.connectPathSocket
    (r.1, SockEffect.connectionStateChanged :: r.2)
  else (s1, [SockEffect.connectionStateChanged])

/-- Socket::isConnected (socket.cpp line 62). -/
def Socket.isConnected (s : Socket) : Bool := s.connected

/-- Socket::setConnected (socket.cpp lines 64 to 73). -/
def Socket.setConnected (s : Socket) (c : Bool) : Socket × List SockEffect :=
  let s1 : Socket := { s with targetConnected := c }
  if !c then
    if s1.socket.isSome && !s1.disconnecting then
      ({ s1 with disconnecting := true }, [SockEffect.disconnectRequest])
    else (s1, [])
  else if s1.socket.isNone then s1.connectPathSocket
  else (s1, [])

/-- Recognizer for connect attempts in an effect list. -/
def SockEffect.isConnectAttempt : SockEffect → Bool
  | SockEffect.connectAttempt _ => true
  | _ => false

/-- Recognizer for path change signals in an effect list. -/
def SockEffect.isPathChanged : SockEffect → Bool
  | SockEffect.pathChanged => true
  | _ => false

/-- Invariant of reachable Socket states: whenever the requested intent is
connected but no socket object exists, the path is empty. Every operation
that leaves the intent true without a socket does so only because
connectPathSocket refused an empty path; preservation is proved below for
each operation. -/
def Socket.socketInv (s : Socket) : Prop :=
  s.targetConnected = true → s.socket = none → s.mPath = ""

/-- Signals and externally visible actions emitted by a SocketServer
operation. teardownHandler records one accepted handler scheduled for
release; listenAttempt records one call of QLocalServer listen. -/
inductive ServerEffect where
  | pathChanged
  | activeStatusChanged
  | listenAttempt (path : String)
  | warnListenFailed (path : String)
  | warnRemoveFailed (path : String)
  | teardownHandler (sock : Socket)
  | warnBadHandler
  | warnHandlerConnected
  | discardObject
  | dropConnection
  deriving Repr, DecidableEq

/-- Recognizer for listen attempts in an effect list. -/
def ServerEffect.isListenAttempt : ServerEffect → Bool
  | ServerEffect.listenAttempt _ => true
  | _ => false

/-- State of the SocketServer QML object (socket.cpp) together with the part
of the filesystem it touches: files is the set of paths at which a file
currently exists. -/
structure ServerState where
  mPath : String
  activeTarget : Bool
  postReload : Bool
  mHandler : Option Unit
  server : Option Unit
  sockets : List Socket
  files : List String
  deriving Repr, DecidableEq

/-- The socket file removal block of SocketServer::disableServer
(socket.cpp lines 169 to 173). Qt compares a QString to nullptr as to the
null string, which equals the empty string, so the guard is a non empty
check. QFile remove succeeding is the removeOk parameter; on failure a
warning is reported. Returns the new file set and the reported warnings. -/
def removeSocketFile (path : String) (files : List String) (removeOk : Bool) :
    List String × List ServerEffect :=
  if path == "" then (files, [])
  else if path ∈ files then
    if removeOk then (files.filter (fun q => q != path), [])
    else (files, [ServerEffect.warnRemoveFailed path])
  else (files, [])

/-- SocketServer::disableServer (socket.cpp lines 156 to 176): if a listener
exists, schedule every accepted handler for release, clear the accepted
list, release the listener; in every case try to delete the socket file at
the path; emit the active status signal if a listener existed. -/
def ServerState.disableServer (st : ServerState) (removeOk : Bool) :
    ServerState × List ServerEffect :=
  let wasActive := st.server.isSome
  let evTear : List ServerEffect :=
    if st.server.isSome then st.sockets.map ServerEffect.teardownHandler else []
  let st1 : ServerState :=
    if st.server.isSome then { st with sockets := [], server := none } else st
  let fr := removeSocketFile st1.mPath st1.files removeOk
  ({ st1 with files := fr.1 },
   evTear ++ fr.2 ++ (if wasActive then [ServerEffect.activeStatusChanged] else []))

/-- The listener creation half of SocketServer::enableServer (socket.cpp
lines 139 to 153): create the QLocalServer, call listen on the path (success
is the listenOk parameter; success creates the socket file), on failure warn
and run disableServer again; finally clear activeTarget unconditionally and
emit the active status signal. -/
def ServerState.listenPhase (st : ServerState) (removeOk listenOk : Bool) :
    ServerState × List ServerEffect :=
  let stS : ServerState := { st with server := some () }
  if listenOk then
    ({ stS with files := stS.mPath :: stS.files, activeTarget := false },
     [ServerEffect.listenAttempt stS.mPath, ServerEffect.activeStatusChanged])
  else
    let dr := stS.disableServer removeOk
    ({ dr.1 with activeTarget := false },
     ServerEffect.listenAttempt stS.mPath :: ServerEffect.warnListenFailed stS.mPath ::
       (dr.2 ++ [ServerEffect.activeStatusChanged]))

/-- SocketServer::enableServer (socket.cpp lines 136 to 154): first run the
full disable routine, then the listener creation half. -/
def ServerState.enableServer (st : ServerState) (removeOk listenOk : Bool) :
    ServerState × List ServerEffect :=
  let d := st.disableServer removeOk
  let l := d.1.listenPhase removeOk listenOk
  (l.1, d.2 ++ l.2)

/-- SocketServer::isActivatable (socket.cpp lines 131 to 134): the five
condition gate. -/
def ServerState.isActivatable (st : ServerState) : Bool :=
  st.server.isNone && st.postReload && st.activeTarget && !(st.mPath == "")
    && st.mHandler.isSome

/-- SocketServer::isActive (socket.cpp line 99). -/
def ServerState.isActive (st : ServerState) : Bool := st.server.isSome

/-- SocketServer::setActive (socket.cpp lines 101 to 108). -/
def ServerState.setActive (st : ServerState) (active removeOk listenOk : Bool) :
    ServerState × List ServerEffect :=
  let st1 : ServerState := { st with activeTarget := active }
  if active == st1.server.isSome then (st1, [])
  else if active then
    if st1.isActivatable then st1.enableServer removeOk listenOk else (st1, [])
  else st1.disableServer removeOk

/-- SocketServer::setPath (socket.cpp lines 112 to 118). -/
def ServerState.setPath (st : ServerState) (path : String) (removeOk listenOk : Bool) :
    ServerState × List ServerEffect :=
  if st.mPath == path then (st, [])
  else
    let st1 : ServerState := { st with mPath := path }
    if st1.isActivatable then
      let r := st1.enableServer removeOk listenOk
      (r.1, ServerEffect.pathChanged :: r.2)
    else (st1, [ServerEffect.pathChanged])

/-- SocketServer::setHandler (socket.cpp lines 122 to 129): release any
previous handler component and record the new one; nothing else happens. -/
def ServerState.setHandler (st : ServerState) (h : Option Unit) :
    ServerState × List ServerEffect :=
  ({ st with mHandler := h }, [])

/-- SocketServer::onPostReload (socket.cpp lines 94 to 97). -/
def ServerState.onPostReload (st : ServerState) (removeOk listenOk : Bool) :
    ServerState × List ServerEffect :=
  let st1 : ServerState := { st with postReload := true }
  if st1.isActivatable then st1.enableServer removeOk listenOk else (st1, [])

/-- The SocketServer destructor (socket.cpp line 92) only calls
disableServer. -/
def ServerState.destroy (st : ServerState) (removeOk : Bool) :
    ServerState × List ServerEffect :=
  st.disableServer removeOk

/-- Result of creating an object from SocketServer.mHandler as observed by
onNewConnection: a null object, a non null object that is not a Socket, or
a Socket instance. -/
inductive FactoryOutput where
  | nullObj
  | notSocket
  | socketObj (s : Socket)
  deriving Repr, DecidableEq

/-- SocketServer::onNewConnection (socket.cpp lines 178 to 203). pending is
what nextPendingConnection returned. A null or non Socket factory product is
warned about, discarded if non null, and the connection dropped with the
server untouched. A Socket product is appended to the accepted list first;
only then, if it already has a live connection the new connection is
dropped, otherwise the connection is installed into it with setSocket (the
signals the handler instance itself emits are its own, not the servers). -/
def ServerState.onNewConnection (st : ServerState) (pending : Option LocalSocket)
    (out : FactoryOutput) : ServerState × List ServerEffect :=
  match pending with
  | none => (st, [])
  | some conn =>
    match out with
    | FactoryOutput.nullObj =>
        (st, [ServerEffect.warnBadHandler, ServerEffect.dropConnection])
    | FactoryOutput.notSocket =>
        (st, [ServerEffect.warnBadHandler, ServerEffect.discardObject,
              ServerEffect.dropConnection])
    | FactoryOutput.socketObj inst =>
        if inst.isConnected then
          ({ st with sockets := st.sockets ++ [inst] },
           [ServerEffect.warnHandlerConnected, ServerEffect.dropConnection])
        else
          ({ st with sockets := st.sockets ++ [(inst.setSocket (some conn)).1] }, [])

/-- Modelled from the spec: process.cpp is not in the source tree, so the
environment merge of the next started process follows section 3 of the spec
and the documentation of Process::environment and Process::clearEnvironment
in src/io/process.hpp. Environments are association lists with unique keys,
matching QMap and QProcessEnvironment. lookupVar finds the value of a key. -/
def lookupVar (env : List (String × String)) (k : String) : Option String :=
  match env with
  | [] => none
  | (k2, v) :: rest => if k2 == k then some v else lookupVar rest k

/-- Modelled from the spec: drop every binding of a key from an
environment. -/
def removeKey : List (String × String) → String → List (String × String)
  | [], _ => []
  | (k2, v) :: rest, k =>
      if k2 == k then removeKey rest k else (k2, v) :: removeKey rest k

/-- Modelled from the spec: bind a key to a value, replacing any previous
binding. -/
def insertVar (env : List (String × String)) (k v : String) : List (String × String) :=
  removeKey env k ++ [(k, v)]

/-- Modelled from the spec: apply one overlay entry. A string value always
binds the key. A null value removes the key when clearEnvironment is false,
and instead binds the ambient value of the key, if any, when
clearEnvironment is true. -/
def applyOverlayEntry (clearEnvironment : Bool) (ambient : List (String × String))
    (env : List (String × String)) (entry : String × Option String) :
    List (String × String) :=
  match entry.2 with
  | some v => insertVar env entry.1 v
  | none =>
    if clearEnvironment then
      match lookupVar ambient entry.1 with
      | some v => insertVar env entry.1 v
      | none => env
    else removeKey env entry.1

/-- Modelled from the spec: the merged environment of the next started
process. With clearEnvironment true the merge starts from an empty
environment, otherwise from the ambient one; then the overlay entries are
applied in order. -/
def mergedEnvironment (ambient : List (String × String))
    (overlay : List (String × Option String)) (clearEnvironment : Bool) :
    List (String × String) :=
  overlay.foldl (applyOverlayEntry clearEnvironment ambient)
    (if clearEnvironment then [] else ambient)

/-- Concrete path used by witnesses. -/
def pathA : String := "a"

/-- Concrete path used by witnesses. -/
def pathB : String := "b"

/-- Concrete socket path used by witnesses, as in the spec scenario. -/
def pathSock : String := "/tmp/x.sock"

/-- The empty path. -/
def emptyPath : String := ""

/-- Concrete environment key used by witnesses. -/
def keyA : String := "A"

/-- Concrete environment key used by witnesses. -/
def keyB : String := "B"

/-- Concrete environment key used by witnesses. -/
def keyC : String := "C"

/-- Concrete environment value used by witnesses. -/
def valOne : String := "1"

/-- Concrete environment value used by witnesses. -/
def valTwo : String := "2"

/-- A freshly constructed Socket: all flags down, no socket, empty path. -/
def sockInit : Socket :=
  { mPath := emptyPath, connected := false, targetConnected := false,
    disconnecting := false, socket := none, buffer := [] }

/-- Step 1 of the reachable trace behind the C2 counterexample: the path is
set to a nonempty value. -/
def sTrace1 : Socket := (sockInit.setPath pathA).1

/-- Step 2: the caller requests a connection, which creates the socket and
starts an asynchronous connect. -/
def sTrace2 : Socket := (sTrace1.setConnected true).1

/-- Step 3: the connect completes and Qt delivers the connected signal. -/
def sTrace3 : Socket := (sTrace2.onSocketConnected).1

/-- Step 4: the caller requests a disconnect, which starts an asynchronous
graceful close. -/
def sTrace4 : Socket := (sTrace3.setConnected false).1

/-- Step 5: while the close is pending the caller sets the path to the
empty string, which the setPath guard permits because disconnecting is
set. -/
def sTrace5 : Socket := (sTrace4.setPath emptyPath).1

/-- Step 6: the caller requests a connection again; the old socket object
still exists so nothing happens beyond recording the intent. -/
def sTrace6 : Socket := (sTrace5.setConnected true).1

/-- Dormant server with every enable condition satisfied except the handler,
as in the spec scenario for claim C1. -/
def stC1 : ServerState :=
  { mPath := pathSock, activeTarget := true, postReload := true, mHandler := none,
    server := none, sockets := [], files := [] }

/-- A handler instance that is already bound to a live connection, used by
the C7 counterexample. -/
def instC7 : Socket :=
  { mPath := emptyPath, connected := true, targetConnected := false,
    disconnecting := false, socket := some { serverName := pathA, isOpen := true },
    buffer := [] }

/-- An inbound pending connection, used by the C7 counterexample. -/
def connC7 : LocalSocket := { serverName := pathSock, isOpen := true }

/-- A listening server with no accepted handlers yet, used by the C7
counterexample. -/
def stC7 : ServerState :=
  { mPath := pathSock, activeTarget := false, postReload := true,
    mHandler := some (), server := some (), sockets := [], files := [pathSock] }

/-- A connected channel whose intent is still connected, used by the C2
witness. -/
def sW2 : Socket :=
  { mPath := pathA, connected := true, targetConnected := true,
    disconnecting := false, socket := some { serverName := pathA, isOpen := true },
    buffer := [7] }

/-- A connected channel, used by the C8 witness. -/
def sW8 : Socket :=
  { mPath := pathA, connected := true, targetConnected := false,
    disconnecting := false, socket := some { serverName := pathA, isOpen := true },
    buffer := [] }

/-- A dormant server missing the post startup notification and the handler,
used by the C4 witness. -/
def stW4 : ServerState :=
  { mPath := pathSock, activeTarget := false, postReload := false, mHandler := none,
    server := none, sockets := [], files := [] }

/-- An enabled server with two accepted handlers and its socket file on
disk, used by the C5 and C10 witnesses. -/
def stW5 : ServerState :=
  { mPath := pathSock, activeTarget := false, postReload := true,
    mHandler := some (), server := some (), sockets := [sockInit, instC7],
    files := [pathSock] }

/-- A dormant server whose activation request was consumed, used by the C9
witness. -/
def stW9 : ServerState :=
  { mPath := pathSock, activeTarget := false, postReload := true,
    mHandler := some (), server := none, sockets := [], files := [] }

/-- A dormant but fully activatable server whose socket path is occupied by
a file some other process created, used by the C10 witness. -/
def stW10 : ServerState :=
  { mPath := pathSock, activeTarget := true, postReload := true,
    mHandler := some (), server := none, sockets := [], files := [pathSock] }

/-- Ambient environment used by the C3 witness. -/
def ambEx : List (String × String) := [(keyA, valOne), (keyB, valTwo)]

/-- Overlay used by the C3 witness: keyA is nulled, keyB is overridden,
keyC is nulled while absent from the ambient environment. -/
def ovEx : List (String × Option String) :=
  [(keyA, none), (keyB, some valOne), (keyC, none)]

/-- connectPathSocket always reestablishes the reachable state invariant:
either it installs a socket, or it refused because the path is empty. -/
theorem sockInv_connectPathSocket (s : Socket) :
    ((s.connectPathSocket).1).socketInv := by
  simp only [Socket.socketInv]
  unfold Socket.connectPathSocket Socket.setSocket
  split
  · rename_i he
    intro _ _
    simpa using he
  · simp

/-- A freshly constructed Socket satisfies the invariant. -/
theorem sockInv_init : sockInit.socketInv := by
  intro h _
  exact absurd h (by decide)

/-- Socket::setPath preserves the reachable state invariant. -/
theorem sockInv_setPath (s : Socket) (p : String) (h : s.socketInv) :
    ((s.setPath p).1).socketInv := by
  unfold Socket.setPath
  dsimp only
  split
  · exact h
  · split
    · exact sockInv_connectPathSocket _
    · rename_i hguard hcond
      simp only [Socket.socketInv]
      intro ht hsock
      simp [ht, hsock] at hcond

/-- Socket::setConnected preserves the reachable state invariant. -/
theorem sockInv_setConnected (s : Socket) (c : Bool) :
    ((s.setConnected c).1).socketInv := by
  unfold Socket.setConnected
  dsimp only
  split
  · rename_i hnc
    split
    · simp only [Socket.socketInv]
      intro ht _
      rw [ht] at hnc
      exact absurd hnc (by decide)
    · simp only [Socket.socketInv]
      intro ht _
      rw [ht] at hnc
      exact absurd hnc (by decide)
  · split
    · exact sockInv_connectPathSocket _
    · rename_i hnc hcond
      simp only [Socket.socketInv]
      intro _ hsock
      simp [hsock] at hcond

/-- Socket::onSocketConnected preserves the reachable state invariant. -/
theorem sockInv_onSocketConnected (s : Socket) :
    ((s.onSocketConnected).1).socketInv := by
  simp [Socket.socketInv, Socket.onSocketConnected]

/-- Socket::onSocketDisconnected preserves the reachable state invariant. -/
theorem sockInv_onSocketDisconnected (s : Socket) :
    ((s.onSocketDisconnected).1).socketInv := by
  unfold Socket.onSocketDisconnected
  dsimp only
  split
  · exact sockInv_connectPathSocket _
  · rename_i hcond
    simp only [Socket.socketInv]
    intro ht _
    exact absurd ht hcond

/-- Socket::setSocket installing a socket object preserves the reachable
state invariant. -/
theorem sockInv_setSocket (s : Socket) (l : LocalSocket) :
    ((s.setSocket (some l)).1).socketInv := by
  simp only [Socket.socketInv]
  intro _ hsock
  unfold Socket.setSocket Socket.onSocketConnected at hsock
  by_cases h : l.isOpen = true <;> simp [h] at hsock

/-- Claim C1, counterexample: a dormant SocketServer satisfying every
enablement condition except the handler (post startup reached, activation
requested, non empty path, no listener) does NOT transition to listening
when a valid handler is set: setHandler performs no re-evaluation of the
enablement gate, contradicting the claim. -/
theorem c1_counterexample :
    stC1.server = none
  ∧ stC1.postReload = true
  ∧ stC1.activeTarget = true
  ∧ (stC1.mPath == "") = false
  ∧ (stC1.setHandler (some ())).1.mHandler = some ()
  ∧ (stC1.setHandler (some ())).1.isActive = false
  ∧ (stC1.setHandler (some ())).2 = [] := by decide

/-- Claim C1, amended: setHandler only records the new handler; it emits
nothing, re-evaluates nothing, and leaves the listening status unchanged,
so the server stays dormant until a later setActive, setPath or post
startup notification re-evaluates the gate. -/
theorem c1_amended (st : ServerState) (h : Option Unit) :
    (st.setHandler h).1 = { st with mHandler := h }
  ∧ (st.setHandler h).2 = []
  ∧ (st.setHandler h).1.isActive = st.isActive := by
  constructor
  · rfl
  · constructor
    · rfl
    · simp [ServerState.setHandler, ServerState.isActive]

/-- Claim C2, counterexample: a reachable SocketChannel state (built by the
operations of the embedding from a fresh channel) in which a disconnect
completes while the target connected intent is still true, yet no reconnect
attempt at all is made, because the current path is empty: the code
contradicts the unconditional single reconnect of the claim. -/
theorem c2_counterexample :
    sTrace6.targetConnected = true
  ∧ sTrace6.connected = true
  ∧ (sTrace6.onSocketDisconnected).1.targetConnected = true
  ∧ (sTrace6.onSocketDisconnected).2.countP SockEffect.isConnectAttempt = 0
  ∧ (sTrace6.onSocketDisconnected).1.socket = none := by decide

/-- Claim C2, amended: on disconnect completion the channel releases the
socket, clears its buffer and emits the connection state event; then, if
the target connected intent is still true AND the current path is non
empty, it attempts exactly one immediate reconnect to the current path;
if the intent is false, or the path is empty, no reconnect is attempted. -/
theorem c2_amended (s : Socket) :
    (s.targetConnected = true → ¬s.mPath = "" →
       s.onSocketDisconnected =
         ({ s with connected := false, disconnecting := false, buffer := [],
                   socket := some { serverName := s.mPath, isOpen := false } },
          [SockEffect.connectionStateChanged, SockEffect.connectAttempt s.mPath]))
  ∧ (s.targetConnected = false →
       s.onSocketDisconnected =
         ({ s with connected := false, disconnecting := false, buffer := [],
                   socket := none },
          [SockEffect.connectionStateChanged]))
  ∧ (s.targetConnected = true → s.mPath = "" →
       s.onSocketDisconnected =
         ({ s with connected := false, disconnecting := false, buffer := [],
                   socket := none },
          [SockEffect.connectionStateChanged])) := by
  rcases s with ⟨mp, c, tc, d, sk, bf⟩
  refine ⟨?_, ?_, ?_⟩
  · intro ht hne
    have ht2 : tc = true := ht
    have hne2 : ¬mp = "" := hne
    have hpe : (mp == "") = false := beq_eq_false_iff_ne.mpr hne2
    simp [Socket.onSocketDisconnected, Socket.connectPathSocket, Socket.setSocket,
      ht2, hpe]
  · intro ht
    have ht2 : tc = false := ht
    simp [Socket.onSocketDisconnected, ht2]
  · intro ht he
    have ht2 : tc = true := ht
    have he2 : mp = "" := he
    simp [Socket.onSocketDisconnected, Socket.connectPathSocket, ht2, he2]

/-- Claim C2, witness: a connected channel with intent still true and path
pathA reconnects exactly once to pathA on disconnect completion. -/
theorem c2_witness :
    sW2.onSocketDisconnected =
      ({ sW2 with connected := false, disconnecting := false, buffer := [],
                  socket := some { serverName := pathA, isOpen := false } },
       [SockEffect.connectionStateChanged, SockEffect.connectAttempt pathA]) :=
  (c2_amended sW2).1 rfl (by decide)

/-- Claim C7, counterexample: when the factory yields a handler already
bound to a live connection, the connection is dropped but the server state
is NOT unchanged: the handler instance is appended to the accepted set. -/
theorem c7_counterexample :
    instC7.isConnected = true
  ∧ (stC7.onNewConnection (some connC7) (FactoryOutput.socketObj instC7)).1 ≠ stC7
  ∧ (stC7.onNewConnection (some connC7) (FactoryOutput.socketObj instC7)).1.sockets
      = [instC7]
  ∧ (stC7.onNewConnection (some connC7) (FactoryOutput.socketObj instC7)).2
      = [ServerEffect.warnHandlerConnected, ServerEffect.dropConnection] := by decide

/-- Claim C7, amended: a null or non Socket factory product is reported,
discarded when non null, and the connection dropped with the server state
unchanged; a factory product already bound to a live connection has the new
connection dropped defensively, but the produced handler is still appended
to the set of accepted handlers (it is retained and torn down on the next
disable). -/
theorem c7_amended (st : ServerState) (conn : LocalSocket) (inst : Socket) :
    (st.onNewConnection (some conn) FactoryOutput.nullObj =
       (st, [ServerEffect.warnBadHandler, ServerEffect.dropConnection]))
  ∧ (st.onNewConnection (some conn) FactoryOutput.notSocket =
       (st, [ServerEffect.warnBadHandler, ServerEffect.discardObject,
             ServerEffect.dropConnection]))
  ∧ (inst.isConnected = true →
       st.onNewConnection (some conn) (FactoryOutput.socketObj inst) =
         ({ st with sockets := st.sockets ++ [inst] },
          [ServerEffect.warnHandlerConnected, ServerEffect.dropConnection])) := by
  refine ⟨rfl, rfl, ?_⟩
  intro hc
  simp [ServerState.onNewConnection, hc]

/-- Claim C7, witness: the amended statement evaluated at the concrete
listening server, pending connection and already connected handler. -/
theorem c7_witness :
    stC7.onNewConnection (some connC7) (FactoryOutput.socketObj instC7)
      = ({ stC7 with sockets := stC7.sockets ++ [instC7] },
         [ServerEffect.warnHandlerConnected, ServerEffect.dropConnection]) :=
  (c7_amended stC7 connC7 instC7).2.2 rfl

/-- Claim C8: for a channel satisfying the reachable state invariant,
setPath p is a strict no-op (state unchanged, nothing emitted) when the
channel is connected and not disconnecting or when p equals the current
path; otherwise it records p, emits the path changed event, and initiates
exactly one immediate connection precisely when the target connected
intent is true and no live socket exists. -/
theorem c8_set_path (s : Socket) (p : String) (hinv : s.socketInv) :
    ((s.connected = true ∧ s.disconnecting = false) ∨ p = s.mPath →
       s.setPath p = (s, []))
  ∧ (¬((s.connected = true ∧ s.disconnecting = false) ∨ p = s.mPath) →
       ((s.setPath p).1.mPath = p
        ∧ (s.targetConnected = true ∧ s.socket = none →
             (s.setPath p).2 = [SockEffect.pathChanged, SockEffect.connectAttempt p]
               ∧ (s.setPath p).1.socket = some { serverName := p, isOpen := false })
        ∧ (¬(s.targetConnected = true ∧ s.socket = none) →
             (s.setPath p).2 = [SockEffect.pathChanged]
               ∧ (s.setPath p).1.socket = s.socket))) := by
  constructor
  · intro hg
    have hb : ((s.connected && !s.disconnecting) || p == s.mPath) = true := by
      rcases hg with ⟨h1, h2⟩ | h3
      · simp [h1, h2]
      · simp [h3]
    simp [Socket.setPath, hb]
  · intro hg
    rcases not_or.mp hg with ⟨h1, h2⟩
    have hb : ((s.connected && !s.disconnecting) || p == s.mPath) = false := by
      have hc : (s.connected && !s.disconnecting) = false := by
        cases hcc : s.connected
        · simp
        · cases hd : s.disconnecting
          · exact absurd ⟨hcc, hd⟩ h1
          · simp [hd]
      have hp : (p == s.mPath) = false := beq_eq_false_iff_ne.mpr h2
      simp [hc, hp]
    refine ⟨?_, ?_, ?_⟩
    · by_cases hx : s.targetConnected = true ∧ s.socket = none
      · have hpe : (p == "") = false :=
          beq_eq_false_iff_ne.mpr (fun he => h2 (he.trans (hinv hx.1 hx.2).symm))
        simp [Socket.setPath, Socket.connectPathSocket, Socket.setSocket, hb,
          hx.1, hx.2, hpe]
      · have hcond : (s.targetConnected && s.socket.isNone) = false := by
          cases htc : s.targetConnected
          · simp
          · cases hsk : s.socket
            · exact absurd ⟨htc, hsk⟩ hx
            · simp [hsk]
        simp [Socket.setPath, hb, hcond]
    · intro hx
      have hpe : (p == "") = false :=
        beq_eq_false_iff_ne.mpr (fun he => h2 (he.trans (hinv hx.1 hx.2).symm))
      simp [Socket.setPath, Socket.connectPathSocket, Socket.setSocket, hb,
        hx.1, hx.2, hpe]
    · intro hx
      have hcond : (s.targetConnected && s.socket.isNone) = false := by
        cases htc : s.targetConnected
        · simp
        · cases hsk : s.socket
          · exact absurd ⟨htc, hsk⟩ hx
          · simp [hsk]
      simp [Socket.setPath, hb, hcond]

/-- Claim C8, witness: resetting the path of a connected channel to its
current value changes nothing and emits nothing. -/
theorem c8_witness : sW8.setPath pathA = (sW8, []) :=
  (c8_set_path sW8 pathA (fun h _ => absurd h (by decide))).1 (Or.inr rfl)

/-- Filtering out a path never keeps that path. -/
theorem not_mem_filter_ne_self (l : List String) (p : String) :
    p ∉ l.filter (fun q => q != p) := by
  intro hmem
  rcases List.mem_filter.mp hmem with ⟨_, h2⟩
  simp at h2

/-- After a successful removal the socket file no longer exists. -/
theorem removeSocketFile_not_mem (path : String) (files : List String)
    (hne : ¬path = "") : path ∉ (removeSocketFile path files true).1 := by
  by_cases hm : path ∈ files
  · have h := not_mem_filter_ne_self files path
    simp only [removeSocketFile]
    rw [if_neg (by simp [hne]), if_pos hm]
    simp only [if_true]
    exact h
  · simp only [removeSocketFile]
    rw [if_neg (by simp [hne]), if_neg hm]
    exact hm

/-- State characterization of SocketServer::disableServer. -/
theorem disable_fst (st : ServerState) (rOk : Bool) :
    (st.disableServer rOk).1 =
      { st with server := none,
                sockets := if st.server.isSome then [] else st.sockets,
                files := (removeSocketFile st.mPath st.files rOk).1 } := by
  rcases st with ⟨mp, atg, pr, mh, sv, sk, fl⟩
  cases sv <;> simp [ServerState.disableServer]

/-- Event characterization of SocketServer::disableServer. -/
theorem disable_snd (st : ServerState) (rOk : Bool) :
    (st.disableServer rOk).2 =
      (if st.server.isSome then st.sockets.map ServerEffect.teardownHandler else [])
      ++ (removeSocketFile st.mPath st.files rOk).2
      ++ (if st.server.isSome then [ServerEffect.activeStatusChanged] else []) := by
  rcases st with ⟨mp, atg, pr, mh, sv, sk, fl⟩
  cases sv <;> simp [ServerState.disableServer]

/-- The only event file removal can report is the removal warning. -/
theorem removeSocketFile_snd_events (path : String) (files : List String)
    (rOk : Bool) :
    ∀ e ∈ (removeSocketFile path files rOk).2,
      e = ServerEffect.warnRemoveFailed path := by
  intro e he
  unfold removeSocketFile at he
  split at he
  · simp at he
  · split at he
    · split at he
      · simp at he
      · simp at he
        exact he
    · simp at he

/-- disableServer never attempts a listen. -/
theorem disable_countP_listen (st : ServerState) (rOk : Bool) :
    (st.disableServer rOk).2.countP ServerEffect.isListenAttempt = 0 := by
  rw [disable_snd, List.countP_eq_zero]
  intro e he
  rcases List.mem_append.mp he with h1 | h2
  · rcases List.mem_append.mp h1 with ha | hb
    · split at ha
      · rcases List.mem_map.mp ha with ⟨s0, _, rfl⟩
        simp [ServerEffect.isListenAttempt]
      · simp at ha
    · rw [removeSocketFile_snd_events st.mPath st.files rOk e hb]
      simp [ServerEffect.isListenAttempt]
  · split at h2
    · simp at h2
      rw [h2]
      simp [ServerEffect.isListenAttempt]
    · simp at h2

/-- Claim C4: starting from a dormant server, each enable triggering
operation (setActive true, setPath, post startup notification) leaves the
server dormant whenever the five condition gate, evaluated on the state the
operation just updated, is false. -/
theorem c4_dormant_unless_gate (st : ServerState) (p : String) (rOk lOk : Bool)
    (hs : st.server = none) :
    (({ st with activeTarget := true } : ServerState).isActivatable = false →
       (st.setActive true rOk lOk).1.server = none)
  ∧ (({ st with mPath := p } : ServerState).isActivatable = false →
       (st.setPath p rOk lOk).1.server = none)
  ∧ (({ st with postReload := true } : ServerState).isActivatable = false →
       (st.onPostReload rOk lOk).1.server = none) := by
  refine ⟨?_, ?_, ?_⟩
  · intro hg
    rw [hs] at hg
    unfold ServerState.setActive
    dsimp only
    simp [hs, hg]
  · intro hg
    rw [hs] at hg
    unfold ServerState.setPath
    dsimp only
    split
    · simp [hs]
    · simp [hg, hs]
  · intro hg
    rw [hs] at hg
    unfold ServerState.onPostReload
    dsimp only
    simp [hg, hs]

/-- Claim C4, witness: a dormant server with no handler and no post startup
notification stays dormant under every enable triggering operation. -/
theorem c4_witness :
    (stW4.setActive true true true).1.server = none
  ∧ (stW4.setPath pathB true true).1.server = none
  ∧ (stW4.onPostReload true true).1.server = none := by
  have h := c4_dormant_unless_gate stW4 pathB true true rfl
  exact ⟨h.1 (by decide), h.2.1 (by decide), h.2.2 (by decide)⟩

/-- Claim C5: disabling an enabled server with a non empty path schedules
every accepted handler for teardown, releases the listener, deletes the
socket file when the delete succeeds, and when the delete fails reports the
warning while the disable still completes. The destructor and
setActive false both run exactly this routine. -/
theorem c5_disable_teardown (st : ServerState) (rOk : Bool)
    (hpath : ¬st.mPath = "") (hs : st.server = some ()) :
    (st.disableServer rOk).1.server = none
  ∧ (st.disableServer rOk).1.sockets = []
  ∧ (st.disableServer rOk).2 =
      st.sockets.map ServerEffect.teardownHandler
        ++ (removeSocketFile st.mPath st.files rOk).2
        ++ [ServerEffect.activeStatusChanged]
  ∧ (rOk = true → st.mPath ∉ (st.disableServer rOk).1.files)
  ∧ (rOk = false → st.mPath ∈ st.files →
       ServerEffect.warnRemoveFailed st.mPath ∈ (st.disableServer rOk).2)
  ∧ st.destroy rOk = st.disableServer rOk
  ∧ st.setActive false rOk true
      = ({ st with activeTarget := false } : ServerState).disableServer rOk := by
  refine ⟨?_, ?_, ?_, ?_, ?_, rfl, ?_⟩
  · simp [disable_fst]
  · simp [disable_fst, hs]
  · rw [disable_snd]
    simp [hs]
  · intro hr
    subst hr
    rw [disable_fst]
    exact removeSocketFile_not_mem st.mPath st.files hpath
  · intro hr hm
    subst hr
    rw [disable_snd]
    have hw : (removeSocketFile st.mPath st.files false).2
        = [ServerEffect.warnRemoveFailed st.mPath] := by
      simp [removeSocketFile, hpath, hm]
    simp [hw]
  · unfold ServerState.setActive
    dsimp only
    simp [hs]

/-- Claim C5, witness: disabling the enabled server with two accepted
handlers and its socket file present releases everything and the file is
gone. -/
theorem c5_witness :
    (stW5.disableServer true).1.server = none
  ∧ (stW5.disableServer true).1.sockets = []
  ∧ pathSock ∉ (stW5.disableServer true).1.files := by
  have h := c5_disable_teardown stW5 true (by decide) rfl
  exact ⟨h.1, h.2.1, h.2.2.2.1 rfl⟩

/-- Claim C6: an enable attempt whose listen fails reports the failure,
performs exactly one listen attempt in total (no retry), and leaves the
server fully dormant: no listener, no accepted handlers, activation request
cleared. -/
theorem c6_listen_failure (st : ServerState) (rOk : Bool) :
    (st.enableServer rOk false).1.server = none
  ∧ (st.enableServer rOk false).1.sockets = []
  ∧ (st.enableServer rOk false).1.activeTarget = false
  ∧ ServerEffect.warnListenFailed st.mPath ∈ (st.enableServer rOk false).2
  ∧ (st.enableServer rOk false).2.countP ServerEffect.isListenAttempt = 1 := by
  unfold ServerState.enableServer ServerState.listenPhase
  dsimp only
  refine ⟨?_, ?_, ?_, ?_, ?_⟩
  · simp [disable_fst]
  · simp [disable_fst]
  · simp
  · simp [disable_fst]
  · simp [List.countP_append, List.countP_cons, disable_countP_listen,
      ServerEffect.isListenAttempt]

/-- Claim C9: every run of the enable routine unconditionally clears the
activation request, whether the listen succeeds or fails; consequently a
dormant server whose activation request is false can never be re-enabled by
a path change, a handler change or a post startup notification alone. -/
theorem c9_enable_clears_activation (st : ServerState) (p : String)
    (h : Option Unit) (rOk lOk rOk2 lOk2 : Bool) :
    (st.enableServer rOk lOk).1.activeTarget = false
  ∧ (st.activeTarget = false → st.server = none →
       ((st.setPath p rOk2 lOk2).1.server = none
        ∧ (st.setHandler h).1.server = none
        ∧ (st.onPostReload rOk2 lOk2).1.server = none)) := by
  constructor
  · unfold ServerState.enableServer ServerState.listenPhase
    dsimp only
    cases lOk <;> simp
  · intro hat hsv
    refine ⟨?_, ?_, ?_⟩
    · unfold ServerState.setPath
      dsimp only
      split
      · simp [hsv]
      · have hg : ({ st with mPath := p } : ServerState).isActivatable = false := by
          unfold ServerState.isActivatable
          simp [hat]
        rw [hsv] at hg
        simp [hg, hsv]
    · simp [ServerState.setHandler, hsv]
    · unfold ServerState.onPostReload
      dsimp only
      have hg : ({ st with postReload := true } : ServerState).isActivatable = false := by
        unfold ServerState.isActivatable
        simp [hat]
      rw [hsv] at hg
      simp [hg, hsv]

/-- Claim C9, witness: enabling clears the activation request, and a dormant
server with a cleared request stays dormant under path, handler and post
startup changes. -/
theorem c9_witness :
    (stW10.enableServer true true).1.activeTarget = false
  ∧ (stW9.setPath pathB true true).1.server = none
  ∧ (stW9.setHandler none).1.server = none
  ∧ (stW9.onPostReload true true).1.server = none := by
  have h1 := c9_enable_clears_activation stW10 pathB none true true true true
  have h2 := c9_enable_clears_activation stW9 pathB none true true true true
  exact ⟨h1.1, (h2.2 rfl rfl).1, (h2.2 rfl rfl).2.1, (h2.2 rfl rfl).2.2⟩

/-- Claim C10: every enable attempt first runs the full disable routine and
only then creates the listener, so with a non empty path any file already
present at the endpoint path, whoever created it, has been deleted (when
the delete succeeds) before the listen begins. -/
theorem c10_enable_runs_disable_first (st : ServerState) (rOk lOk : Bool) :
    ((st.enableServer rOk lOk).1 = ((st.disableServer rOk).1.listenPhase rOk lOk).1
     ∧ (st.enableServer rOk lOk).2 =
         (st.disableServer rOk).2 ++ ((st.disableServer rOk).1.listenPhase rOk lOk).2)
  ∧ (rOk = true → ¬st.mPath = "" → st.mPath ∉ (st.disableServer rOk).1.files) := by
  refine ⟨⟨rfl, rfl⟩, ?_⟩
  intro hr hne
  subst hr
  rw [disable_fst]
  exact removeSocketFile_not_mem st.mPath st.files hne

/-- Claim C10, witness: a file left at the endpoint path by someone else is
gone already after the disable half of the enable routine. -/
theorem c10_witness :
    pathSock ∉ (stW10.disableServer true).1.files
  ∧ (stW10.enableServer true true).2 =
      (stW10.disableServer true).2
        ++ ((stW10.disableServer true).1.listenPhase true true).2 := by
  have h := c10_enable_runs_disable_first stW10 true true
  exact ⟨h.2 rfl (by decide), h.1.2⟩

/-- lookupVar distributes over append, preferring the left list. -/
theorem lookupVar_append (a b : List (String × String)) (k : String) :
    lookupVar (a ++ b) k =
      match lookupVar a k with
      | some v => some v
      | none => lookupVar b k := by
  induction a with
  | nil => simp [lookupVar]
  | cons hd tl ih =>
    rcases hd with ⟨k2, v⟩
    by_cases h : (k2 == k) = true
    · simp [lookupVar, h]
    · simp [lookupVar, h, ih]

/-- Removing a key makes it unfindable. -/
theorem lookupVar_removeKey_self (env : List (String × String)) (k : String) :
    lookupVar (removeKey env k) k = none := by
  induction env with
  | nil => simp [removeKey, lookupVar]
  | cons hd tl ih =>
    rcases hd with ⟨k2, v⟩
    by_cases h : (k2 == k) = true
    · simp [removeKey, h, ih]
    · simp [removeKey, lookupVar, h, ih]

/-- Removing one key leaves lookups of other keys unchanged. -/
theorem lookupVar_removeKey_ne (env : List (String × String)) (k2 k : String)
    (h : ¬k2 = k) : lookupVar (removeKey env k2) k = lookupVar env k := by
  induction env with
  | nil => simp [removeKey]
  | cons hd tl ih =>
    rcases hd with ⟨ka, v⟩
    by_cases h1 : (ka == k2) = true
    · have hka : ka = k2 := by simpa using h1
      have h2 : (ka == k) = false := beq_eq_false_iff_ne.mpr (hka ▸ h)
      simp [removeKey, h1, lookupVar, h2, ih]
    · simp [removeKey, h1, lookupVar, ih]

/-- Binding a key makes its value findable. -/
theorem lookupVar_insertVar_self (env : List (String × String)) (k v : String) :
    lookupVar (insertVar env k v) k = some v := by
  unfold insertVar
  rw [lookupVar_append, lookupVar_removeKey_self]
  simp [lookupVar]

/-- Binding one key leaves lookups of other keys unchanged. -/
theorem lookupVar_insertVar_ne (env : List (String × String)) (k2 k v : String)
    (h : ¬k2 = k) : lookupVar (insertVar env k2 v) k = lookupVar env k := by
  unfold insertVar
  rw [lookupVar_append, lookupVar_removeKey_ne env k2 k h]
  have hb : (k2 == k) = false := beq_eq_false_iff_ne.mpr h
  cases hx : lookupVar env k <;> simp [lookupVar, hb]

/-- Applying an overlay entry for a different key leaves a lookup
unchanged. -/
theorem applyOverlayEntry_lookup_ne (c : Bool) (amb env : List (String × String))
    (e : String × Option String) (k : String) (h : ¬e.1 = k) :
    lookupVar (applyOverlayEntry c amb env e) k = lookupVar env k := by
  rcases e with ⟨ke, w⟩
  replace h : ¬ke = k := h
  cases w with
  | some v => simp [applyOverlayEntry, lookupVar_insertVar_ne env ke k v h]
  | none =>
    cases c with
    | false => simp [applyOverlayEntry, lookupVar_removeKey_ne env ke k h]
    | true =>
      simp only [applyOverlayEntry]
      cases hx : lookupVar amb ke with
      | none => simp [hx]
      | some av => simp [hx, lookupVar_insertVar_ne env ke k av h]

/-- Folding overlay entries none of which bind a key leaves its lookup
unchanged. -/
theorem foldl_lookup_ne (ov : List (String × Option String)) (c : Bool)
    (amb : List (String × String)) (k : String)
    (h : ∀ e ∈ ov, ¬e.1 = k) :
    ∀ env, lookupVar (ov.foldl (applyOverlayEntry c amb) env) k
      = lookupVar env k := by
  induction ov with
  | nil => intro env; rfl
  | cons hd tl ih =>
    intro env
    rw [List.foldl_cons,
      ih (fun e he => h e (List.mem_cons_of_mem hd he)) _]
    exact applyOverlayEntry_lookup_ne c amb env hd k (h hd (List.mem_cons_self hd tl))

/-- The merged value of a key bound by the overlay, for overlays with
unique keys: a string binds it, null removes it when the ambient
environment is inherited and inherits the ambient value when it is not. -/
theorem merged_lookup_of_mem (ambient : List (String × String))
    (overlay : List (String × Option String)) (k : String) (w : Option String)
    (c : Bool) (hnd : (overlay.map Prod.fst).Nodup) (hmem : (k, w) ∈ overlay) :
    lookupVar (mergedEnvironment ambient overlay c) k =
      match w with
      | some v => some v
      | none => if c then lookupVar ambient k else none := by
  obtain ⟨l1, l2, rfl⟩ := List.append_of_mem hmem
  rw [List.map_append, List.map_cons] at hnd
  obtain ⟨hnd1, hnd2, hdisj⟩ := List.nodup_append.mp hnd
  have hk2 : k ∉ l2.map Prod.fst := (List.nodup_cons.mp hnd2).1
  have hk1 : k ∉ l1.map Prod.fst := fun hm => hdisj hm (List.mem_cons_self _ _)
  unfold mergedEnvironment
  rw [List.foldl_append, List.foldl_cons,
    foldl_lookup_ne l2 c ambient k
      (fun e he heq => hk2 (heq ▸ List.mem_map_of_mem Prod.fst he)) _]
  cases w with
  | some v => simp [applyOverlayEntry, lookupVar_insertVar_self]
  | none =>
    cases c with
    | false => simp [applyOverlayEntry, lookupVar_removeKey_self]
    | true =>
      simp only [applyOverlayEntry]
      cases hx : lookupVar ambient k with
      | some av => simp [hx, lookupVar_insertVar_self]
      | none =>
        simp only [hx, if_true]
        rw [foldl_lookup_ne l1 true ambient k
          (fun e he heq => hk1 (heq ▸ List.mem_map_of_mem Prod.fst he)) _]
        simp [lookupVar]

/-- Claim C3 (spec modelled, process.cpp absent from the tree): with
clearEnvironment false a key mapped to null is absent from the merged
environment even when the ambient environment defines it, and a key mapped
to a string always overrides the ambient value; with clearEnvironment true
the merge starts empty, a key mapped to null takes the ambient value when
present and is absent otherwise, a key mapped to a string is bound, and
every key the overlay does not mention is absent. Overlays have unique
keys, as QMap guarantees. -/
theorem c3_environment (ambient : List (String × String))
    (overlay : List (String × Option String)) (k v : String)
    (hnd : (overlay.map Prod.fst).Nodup) :
    ((k, none) ∈ overlay →
       lookupVar (mergedEnvironment ambient overlay false) k = none)
  ∧ ((k, some v) ∈ overlay →
       lookupVar (mergedEnvironment ambient overlay false) k = some v)
  ∧ ((k, none) ∈ overlay →
       lookupVar (mergedEnvironment ambient overlay true) k = lookupVar ambient k)
  ∧ ((k, some v) ∈ overlay →
       lookupVar (mergedEnvironment ambient overlay true) k = some v)
  ∧ ((∀ e ∈ overlay, ¬e.1 = k) →
       lookupVar (mergedEnvironment ambient overlay true) k = none)
  ∧ ((∀ e ∈ overlay, ¬e.1 = k) →
       lookupVar (mergedEnvironment ambient overlay false) k
         = lookupVar ambient k) := by
  refine ⟨?_, ?_, ?_, ?_, ?_, ?_⟩
  · intro hm
    simpa using merged_lookup_of_mem ambient overlay k none false hnd hm
  · intro hm
    simpa using merged_lookup_of_mem ambient overlay k (some v) false hnd hm
  · intro hm
    simpa using merged_lookup_of_mem ambient overlay k none true hnd hm
  · intro hm
    simpa using merged_lookup_of_mem ambient overlay k (some v) true hnd hm
  · intro hall
    unfold mergedEnvironment
    rw [foldl_lookup_ne overlay true ambient k hall]
    rfl
  · intro hall
    unfold mergedEnvironment
    rw [foldl_lookup_ne overlay false ambient k hall]
    rfl

/-- Claim C3, witness: with the concrete ambient environment and overlay,
the nulled ambient key is gone when not clearing, the overridden key holds
the overlay value, and when clearing the nulled keys inherit exactly the
ambient values (present for keyA, absent for keyC). -/
theorem c3_witness :
    lookupVar (mergedEnvironment ambEx ovEx false) keyA = none
  ∧ lookupVar (mergedEnvironment ambEx ovEx false) keyB = some valOne
  ∧ lookupVar (mergedEnvironment ambEx ovEx true) keyA = lookupVar ambEx keyA
  ∧ lookupVar (mergedEnvironment ambEx ovEx true) keyC = lookupVar ambEx keyC := by
  have h1 := c3_environment ambEx ovEx keyA valOne (by decide)
  have h2 := c3_environment ambEx ovEx keyB valOne (by decide)
  have h3 := c3_environment ambEx ovEx keyC valOne (by decide)
  exact ⟨h1.1 (by decide), h2.2.1 (by decide), h1.2.2.1 (by decide),
    h3.2.2.1 (by decide)⟩
